import Mathlib

/-!
Verification of the RAG_Project pipeline (`src/Desktop/RAGPROJECT`): a
shallow embedding in Lean 4 of the chat-history session store
(`chat_history.py`), the ingest/query workflow step functions and the
Groq answer synthesizer (`main.py`), the run-status polling loop
(`streamlit_app.py`), and a chunker modelled from the specification
(the concrete splitter lives in an external library).

External collaborators (the embedding model, the Qdrant vector store,
the uuid5 hash, the HTTP transport) are parameters of the embedded
functions: the theorems hold for every choice of those parameters.
-/

namespace RAGProject

/-! ## Data model (`custom_types.py`) -/

/-- `ChatMessage` from `custom_types.py`: one question/answer exchange.
Timestamps are abstracted as naturals. -/
structure ChatMessage where
  question : String
  answer : String
  timestamp : Nat
  sources : List String
deriving DecidableEq, Repr, Inhabited

/-- `ChatSession` from `custom_types.py`. -/
structure ChatSession where
  session_id : String
  pdf_name : String
  messages : List ChatMessage := []
  created_at : Nat
deriving DecidableEq, Repr

/-- `RAGChunkAndSrc` from `custom_types.py`. -/
structure RAGChunkAndSrc where
  chunks : List String
  source_id : String
deriving DecidableEq, Repr

/-- `RAGUpsertResult` from `custom_types.py`. -/
structure RAGUpsertResult where
  ingested : Nat
deriving DecidableEq, Repr

/-- `RAGSearchResult` from `custom_types.py`. -/
structure RAGSearchResult where
  contexts : List String
  sources : List String
deriving DecidableEq, Repr

/-- `RAGQueryResult` from `custom_types.py`. -/
structure RAGQueryResult where
  answer : String
  sources : List String
  num_contexts : Nat
deriving DecidableEq, Repr

/-! ## Session store (`chat_history.py`)

The store is the directory of session files: a map from session id
(the file stem) to the session recorded in that file.  `_load_session`
reads the file for the given id; `_save_session` writes the session to
the file named by the session's own `session_id` field. -/

/-- The filesystem directory `chat_sessions/`, as a map from file stem
to stored session. -/
def Store : Type := String → Option ChatSession

/-- `ChatHistoryManager._load_session`: read `{session_id}.json` if it
exists. -/
def load_session (store : Store) (session_id : String) : Option ChatSession :=
  store session_id

/-- `ChatHistoryManager._save_session`: write the session to the file
named by the session's `session_id` field, overwriting it. -/
def save_session (store : Store) (s : ChatSession) : Store :=
  fun sid => if sid = s.session_id then some s else store sid

/-- `ChatHistoryManager.add_message`: load the session; if it exists,
append one `ChatMessage` built from the arguments and the current time
and save; if not, do nothing. -/
def add_message (store : Store) (session_id question answer : String)
    (sources : List String) (now : Nat) : Store :=
  match load_session store session_id with
  | some s =>
      save_session store
        { s with messages :=
            s.messages ++ [{ question := question, answer := answer,
                             timestamp := now, sources := sources }] }
  | none => store

/-- `ChatHistoryManager.get_session_history`: return the messages of
the stored session, or `[]` when none exists.  The second component is
the store after the call (the function performs no writes). -/
def get_session_history (store : Store) (session_id : String) :
    List ChatMessage × Store :=
  (match load_session store session_id with
   | some s => s.messages
   | none => [], store)

/-- `ChatHistoryManager.create_session`: build a fresh session with no
messages and save it; return its id.  The id is supplied by the uuid4
generator, abstracted as an argument. -/
def create_session (store : Store) (pdf_name : String) (fresh_id : String)
    (now : Nat) : String × Store :=
  let s : ChatSession :=
    { session_id := fresh_id, pdf_name := pdf_name, messages := [],
      created_at := now }
  (fresh_id, save_session store s)

/-- A concrete one-session store used to witness theorems about
`add_message`. -/
def sessionOne : ChatSession :=
  { session_id := "s1", pdf_name := "d.pdf", messages := [], created_at := 3 }

/-- The store holding exactly `sessionOne` under its id. -/
def storeOne : Store :=
  fun sid => if sid = "s1" then some sessionOne else none

/-! ## Answer synthesizer (`main.py`, `get_groq_answer`)

The HTTP POST to the Groq endpoint is abstracted as a `GroqOutcome`:
either the request itself raised (timeout, connection error), or a
response arrived with a status code and a body that may or may not
contain the expected `choices[0].message.content` string. -/

/-- The characters Python's `str.strip()` removes (ASCII whitespace;
the source strings are model content). -/
def isPySpace (c : Char) : Bool :=
  c = ' ' || c = '\t' || c = '\n' || c = '\r' ||
    c = Char.ofNat 11 || c = Char.ofNat 12

/-- Python `str.strip()` on a character list: drop whitespace from both
ends. -/
def pyStrip (l : List Char) : List Char :=
  ((l.dropWhile isPySpace).reverse.dropWhile isPySpace).reverse

/-- Python `str.replace('\\n', '\n')` on a character list: scan left to
right; each non-overlapping occurrence of backslash followed by `n`
becomes a newline. -/
def replBsn : List Char → List Char
  | '\\' :: 'n' :: cs => '\n' :: replBsn cs
  | c :: cs => c :: replBsn cs
  | [] => []

/-- Whether a character list still contains the two-character sequence
backslash-`n`. -/
def hasBsn : List Char → Bool
  | '\\' :: 'n' :: _ => true
  | _ :: cs => hasBsn cs
  | [] => false

/-- `str.strip()` on strings. -/
def pyStripStr (s : String) : String := ⟨pyStrip s.data⟩

/-- `str.replace('\\n', '\n')` on strings. -/
def replBsnStr (s : String) : String := ⟨replBsn s.data⟩

/-- `hasBsn` on strings. -/
def hasBsnStr (s : String) : Bool := hasBsn s.data

/-- Outcome of `requests.post` to the Groq chat-completions endpoint. -/
inductive GroqOutcome where
  /-- The request itself raised: timeout, connection failure, … -/
  | transportError : GroqOutcome
  /-- A response arrived with HTTP status `status`; `content` is the
  string at `json()['choices'][0]['message']['content']` when the body
  parses to that shape, `none` when the body is malformed. -/
  | response (status : Nat) (content : Option String) : GroqOutcome
deriving DecidableEq, Repr

/-- The fixed fallback returned by `get_groq_answer` when anything in
the `try` block raises. -/
def apologyMessage : String :=
  "I apologize, but I'm having trouble generating a response right now. Please try again."

/-- Whether the body of `get_groq_answer`'s `try` block raises:
`requests.post` failed, `raise_for_status` raised (HTTP 4xx/5xx), or
indexing into the parsed body raised (malformed body). -/
def groqCallRaises : GroqOutcome → Bool
  | .transportError => true
  | .response status content =>
      (decide (400 ≤ status) && decide (status < 600)) || content.isNone

/-- `get_groq_answer` (`main.py` lines 23–51): POST to Groq; raise for
4xx/5xx; extract `choices[0].message.content`, strip it, replace
literal `\\n` by newline; on any exception return the fixed apology. -/
def get_groq_answer (o : GroqOutcome) : String :=
  match o with
  | .transportError => apologyMessage
  | .response status content =>
      if 400 ≤ status ∧ status < 600 then apologyMessage
      else
        match content with
        | none => apologyMessage
        | some c => replBsnStr (pyStripStr c)

/-! ## Ingest workflow (`main.py`, `rag_ingest_pdf`) -/

/-- The payload stored with each vector record. -/
structure VectorPayload where
  source : String
  text : String
deriving DecidableEq, Repr

/-- The data of a `rag/ingest_pdf` event: `pdf_path` required,
`source_id` optional. -/
structure IngestEvent where
  pdf_path : String
  source_id : Option String
deriving DecidableEq, Repr

/-- The `_load` step of `rag_ingest_pdf` (`main.py` lines 66–70): read
`pdf_path` from the event, default `source_id` to `pdf_path` when the
payload omits it, and chunk the document.  `load_and_chunk_pdf` runs
the external PDF reader and splitter, abstracted as `chunker`. -/
def loadStep (chunker : String → List String) (ev : IngestEvent) :
    RAGChunkAndSrc :=
  let pdf_path := ev.pdf_path
  let source_id := ev.source_id.getD pdf_path
  { chunks := chunker pdf_path, source_id := source_id }

/-- Everything the `_upsert` step hands to `QdrantStorage().upsert`,
plus its returned result. -/
structure UpsertOutput (V : Type) where
  ids : List String
  vecs : List V
  payloads : List VectorPayload
  result : RAGUpsertResult

/-- The `_upsert` step of `rag_ingest_pdf` (`main.py` lines 72–79):
embed the chunks, derive one id per chunk as
`uuid5(NAMESPACE_URL, f"{source_id}:{i}")`, build one payload
`{source, text}` per chunk, and report `ingested = len(chunks)`.
The uuid5 hash and the embedding model are external, abstracted as
`uuid5` and `embed`. -/
def upsertStep {V : Type} (uuid5 : String → String)
    (embed : List String → List V) (cs : RAGChunkAndSrc) : UpsertOutput V :=
  let chunks := cs.chunks
  let source_id := cs.source_id
  let vecs := embed chunks
  let ids := (List.range chunks.length).map
    (fun i => uuid5 (source_id ++ ":" ++ toString i))
  let payloads := (List.range chunks.length).map
    (fun i => { source := source_id, text := chunks.getD i "" : VectorPayload })
  { ids := ids, vecs := vecs, payloads := payloads,
    result := { ingested := chunks.length } }

/-- `rag_ingest_pdf` (`main.py` lines 65–83): run `_load`, then
`_upsert` on its output. -/
def rag_ingest_pdf {V : Type} (chunker : String → List String)
    (uuid5 : String → String) (embed : List String → List V)
    (ev : IngestEvent) : UpsertOutput V :=
  upsertStep uuid5 embed (loadStep chunker ev)

/-- The file name of a path — the text after the last `/` — per the
claim that the default source identifier is the path's file name.
Stated from the spec's words, for comparison with `loadStep`. -/
def fileName (path : String) : String :=
  ⟨(path.data.reverse.takeWhile (fun c => c != '/')).reverse⟩

/-! ## Query workflow (`main.py`, `rag_query_pdf_ai`) -/

/-- The data of a `rag/query_pdf_ai` event: `question` required,
`top_k` optional. -/
structure QueryEvent where
  question : String
  top_k : Option Int
deriving DecidableEq, Repr

/-- The `_search` step of `rag_query_pdf_ai` (`main.py` lines 91–95):
embed the question, search the store with `top_k`, and package
contexts and sources.  Embedding model and Qdrant search are external,
abstracted as `embed` and `storeSearch`. -/
def searchStep {V : Type} [Inhabited V] (embed : List String → List V)
    (storeSearch : V → Int → RAGSearchResult)
    (question : String) (top_k : Int) : RAGSearchResult :=
  let query_vec := (embed [question]).getD 0 default
  let found := storeSearch query_vec top_k
  { contexts := found.contexts, sources := found.sources }

/-- `rag_query_pdf_ai` (`main.py` lines 90–121): read `question` and
`top_k` (default 5) from the event, run `_search`, build the prompt
from the joined contexts and the question, ask the synthesizer
(abstracted as `llm`), and return `{answer, sources, num_contexts}`. -/
def rag_query_pdf_ai {V : Type} [Inhabited V] (embed : List String → List V)
    (storeSearch : V → Int → RAGSearchResult) (llm : String → String)
    (ev : QueryEvent) : RAGQueryResult :=
  let question := ev.question
  let top_k : Int := ev.top_k.getD 5
  let found := searchStep embed storeSearch question top_k
  let context_block := String.intercalate "\n\n" found.contexts
  let prompt :=
    "Answer the question using ONLY the context below. Be concise and accurate.\n\nCONTEXT:\n"
      ++ context_block ++ "\n\nQUESTION: " ++ question
      ++ "\n\nIf the answer cannot be found in the context, say \"I cannot find the answer in the provided documents.\"\n\nANSWER:"
  let answer := llm prompt
  { answer := answer, sources := found.sources,
    num_contexts := found.contexts.length }

/-! ## Chunker (modelled from the spec)

`load_and_chunk_pdf` (`data_loader.py` lines 9–17) delegates the
splitting itself to `SentenceSplitter(chunk_size=1000,
chunk_overlap=200)` from the external llama_index library: no
splitting algorithm exists in this repository.  The chunker below is
therefore modelled from the specification. -/

/-- Modelled from the spec: the Chunker contract of §4.1/§8, standing
in for the external `SentenceSplitter(chunk_size=1000,
chunk_overlap=200)` used by `load_and_chunk_pdf`.  It produces an
ordered sequence of segments of at most `size` characters, each
consecutive pair overlapping in `ov` characters, covering the whole
input. -/
def chunkText (size ov : Nat) (s : List Char) : List (List Char) :=
  if h : ov < size ∧ size < s.length then
    s.take size :: chunkText size ov (s.drop (size - ov))
  else [s]
termination_by s.length
decreasing_by
  simp only [List.length_drop]
  omega

/-- Concatenation of a chunk tail with each chunk's leading `ov`
overlap characters removed. -/
def dropOvJoin (ov : Nat) : List (List Char) → List Char
  | [] => []
  | c :: cs => c.drop ov ++ dropOvJoin ov cs

/-- Concatenation of chunks with the overlapping regions removed: the
first chunk whole, every later chunk without its leading `ov`
characters. -/
def reconcat (ov : Nat) : List (List Char) → List Char
  | [] => []
  | c :: cs => c ++ dropOvJoin ov cs

/-- `load_and_chunk_pdf` (`data_loader.py` lines 11–17): one text per
page from the external PDF reader (pages without text are skipped),
split each with the chunker, and concatenate.  The reader is
abstracted as the list of per-page texts it extracts. -/
def load_and_chunk_pdf (pages : List (Option String)) : List (List Char) :=
  let texts := pages.filterMap (fun t =>
    match t with
    | some s => if s = "" then none else some s
    | none => none)
  (texts.map (fun t => chunkText 1000 200 t.data)).flatten

/-! ## Run-status polling (`streamlit_app.py`, `wait_for_run_output`)

`fetch_runs` is the external Inngest REST endpoint, abstracted as a
sequence `polls` of runs lists, one per loop iteration; `time.time()`
is abstracted as the sequence `elapsed` of clock readings at each
iteration's deadline check. -/

/-- One run descriptor from the runs endpoint: `status` and `output`
may each be absent. -/
structure RunInfo where
  status : Option String
  output : Option (List (String × String))
deriving DecidableEq, Repr

/-- The statuses `wait_for_run_output` treats as terminal success. -/
def successStatuses : List String :=
  ["Completed", "Succeeded", "Success", "Finished"]

/-- The statuses `wait_for_run_output` treats as terminal failure. -/
def failureStatuses : List String := ["Failed", "Cancelled"]

/-- Python `status in (...)` where `status` may be `None`. -/
def optStatusIn (statuses : List String) : Option String → Bool
  | some s => decide (s ∈ statuses)
  | none => false

/-- How `wait_for_run_output` can end. -/
inductive WaitOutcome where
  /-- `return run.get("output") or \x7b\x7d` -/
  | output (o : List (String × String)) : WaitOutcome
  /-- `raise RuntimeError(...)`, carrying the offending status -/
  | runFailed (status : Option String) : WaitOutcome
  /-- `raise TimeoutError(...)`, carrying the last seen status -/
  | timedOut (lastStatus : Option String) : WaitOutcome
deriving DecidableEq, Repr

/-- What one pass of the `while True` body decides. -/
inductive IterResult where
  | terminal (w : WaitOutcome) : IterResult
  | keepPolling (lastStatus : Option String) : IterResult
deriving DecidableEq, Repr

/-- Python `status or last_status`: missing and empty statuses are
falsy, so they keep the previous value. -/
def orStatus (status lastStatus : Option String) : Option String :=
  match status with
  | some s => if s = "" then lastStatus else some s
  | none => lastStatus

/-- One pass of `wait_for_run_output`'s loop body (`streamlit_app.py`
lines 115–127): if the runs list is nonempty, read the most recent
run's status and remember it, return the run's output on a success
status, raise on a failure status; then, whether or not runs arrived,
raise `TimeoutError` if the deadline has passed; otherwise sleep and
poll again. -/
def pollIter (runs : List RunInfo) (deadlineExceeded : Bool)
    (lastStatus : Option String) : IterResult :=
  match runs with
  | run :: _ =>
    let status := run.status
    let last := orStatus status lastStatus
    if optStatusIn successStatuses status then
      .terminal (.output (run.output.getD []))
    else if optStatusIn failureStatuses status then
      .terminal (.runFailed status)
    else if deadlineExceeded then
      .terminal (.timedOut last)
    else
      .keepPolling last
  | [] =>
    if deadlineExceeded then .terminal (.timedOut lastStatus)
    else .keepPolling lastStatus

/-- `wait_for_run_output` (`streamlit_app.py` lines 112–127): run the
loop body on each successive poll.  `fuel` bounds how many iterations
the model unfolds: `none` means the loop is still running after
`fuel` iterations; `n` counts iterations already done. -/
def wait_for_run_output (polls : Nat → List RunInfo) (elapsed : Nat → Nat)
    (timeout_s : Nat) : Nat → Nat → Option String → Option WaitOutcome
  | 0, _, _ => none
  | fuel + 1, n, lastStatus =>
    match pollIter (polls n) (decide (timeout_s < elapsed n)) lastStatus with
    | .terminal w => some w
    | .keepPolling last =>
        wait_for_run_output polls elapsed timeout_s fuel (n + 1) last

end RAGProject

namespace RAGProject

/-! ## Theorems: session store -/

/-- C6: `add_message` on an unknown session id raises no error and
leaves every stored session exactly as it was. -/
theorem add_message_unknown_session_noop
    (store : Store) (session_id question answer : String)
    (sources : List String) (now : Nat)
    (h : load_session store session_id = none) :
    add_message store session_id question answer sources now = store := by
  unfold add_message
  rw [h]

/-- Witness for C6 at a concrete empty store. -/
theorem add_message_unknown_session_noop_witness :
    load_session (fun _ => none) "s1" = none ∧
      add_message (fun _ => none) "s1" "q" "a" ["src"] 7 = (fun _ => none) :=
  ⟨rfl, add_message_unknown_session_noop (fun _ => none) "s1" "q" "a" ["src"] 7 rfl⟩

/-- C7: on an existing session (stored under its own id, the invariant
every write of the store maintains), `add_message` appends exactly one
new message at the end, preserves all earlier messages in order,
leaves `session_id`, `pdf_name` and `created_at` unchanged, and leaves
every other stored session untouched. -/
theorem add_message_appends_one
    (store : Store) (session_id question answer : String)
    (sources : List String) (now : Nat) (s : ChatSession)
    (h : load_session store session_id = some s)
    (hid : s.session_id = session_id) :
    (add_message store session_id question answer sources now) session_id =
      some { session_id := s.session_id, pdf_name := s.pdf_name,
             messages := s.messages ++
               [{ question := question, answer := answer,
                  timestamp := now, sources := sources }],
             created_at := s.created_at } ∧
    ∀ other, other ≠ session_id →
      (add_message store session_id question answer sources now) other =
        store other := by
  unfold add_message
  rw [h]
  constructor
  · simp [save_session, hid]
  · intro other hother
    simp [save_session, hid, hother]

/-- Witness for C7 at the concrete store `storeOne`. -/
theorem add_message_appends_one_witness :
    load_session storeOne "s1" = some sessionOne ∧
    (add_message storeOne "s1" "q" "a" ["d.pdf"] 9) "s1" =
      some { session_id := "s1", pdf_name := "d.pdf",
             messages := [{ question := "q", answer := "a",
                            timestamp := 9, sources := ["d.pdf"] }],
             created_at := 3 } := by
  have h : load_session storeOne "s1" = some sessionOne := by
    simp [load_session, storeOne]
  exact ⟨h, (add_message_appends_one storeOne "s1" "q" "a" ["d.pdf"] 9
    sessionOne h rfl).1⟩

/-- C10: `get_session_history` on an unknown session id returns the
empty list and leaves the store exactly as it was. -/
theorem get_session_history_unknown_empty
    (store : Store) (session_id : String)
    (h : load_session store session_id = none) :
    (get_session_history store session_id).1 = [] ∧
      (get_session_history store session_id).2 = store := by
  unfold get_session_history
  rw [h]
  exact ⟨rfl, rfl⟩

/-- Witness for C10 at a concrete empty store. -/
theorem get_session_history_unknown_empty_witness :
    load_session (fun _ => none) "missing" = none ∧
      ((get_session_history (fun _ => none) "missing").1 = [] ∧
        (get_session_history (fun _ => none) "missing").2 = (fun _ => none)) :=
  ⟨rfl, get_session_history_unknown_empty (fun _ => none) "missing" rfl⟩

/-! ## Theorems: answer synthesizer -/

/-- If the output of `replBsn` starts with `n`, so did its input:
replacement never creates a leading `n` out of nothing. -/
theorem replBsn_head_n (l : List Char) :
    (replBsn l).head? = some 'n' → l.head? = some 'n' := by
  induction l using replBsn.induct with
  | case1 cs ih => simp [replBsn]
  | case2 c cs h ih => simp [replBsn]
  | case3 => simp [replBsn]

/-- Unfolding `hasBsn` one character at a time. -/
theorem hasBsn_cons (c : Char) (x : List Char) :
    hasBsn (c :: x) =
      ((decide (c = '\\') && (x.head? == some 'n')) || hasBsn x) := by
  match c, x with
  | c, [] =>
    by_cases h1 : c = '\\' <;> simp [hasBsn, h1]
  | c, c2 :: rest =>
    by_cases h1 : c = '\\'
    · subst h1
      by_cases h2 : c2 = 'n'
      · subst h2; simp [hasBsn]
      · simp [hasBsn, h2, Ne.symm h2]
    · simp [hasBsn, h1]

/-- After `replBsn`, no literal backslash-`n` pair remains: every
occurrence was replaced. -/
theorem replBsn_no_bsn (l : List Char) : hasBsn (replBsn l) = false := by
  induction l using replBsn.induct with
  | case1 cs ih =>
    simp only [replBsn]
    simpa [hasBsn] using ih
  | case2 c cs h ih =>
    simp only [replBsn]
    rw [hasBsn_cons]
    by_cases hc : c = '\\'
    · subst hc
      have hcs : cs.head? ≠ some 'n' := by
        intro hh
        rcases cs with _ | ⟨c2, rest⟩
        · simp at hh
        · simp at hh
          exact h rest rfl (by rw [hh])
      have hrep : (replBsn cs).head? ≠ some 'n' :=
        fun hq => hcs (replBsn_head_n cs hq)
      simp [hrep, ih]
    · simp [hc, ih]
  | case3 => rfl

/-- C3: on a successful language-model response with content `c`,
`get_groq_answer` returns `c` stripped of surrounding whitespace with
every literal two-character `\\n` replaced by a newline; in
particular, the returned text contains no literal backslash-`n`
pair. -/
theorem get_groq_answer_success_normalizes (status : Nat) (c : String)
    (h : ¬ (400 ≤ status ∧ status < 600)) :
    get_groq_answer (.response status (some c)) = replBsnStr (pyStripStr c) ∧
    hasBsnStr (get_groq_answer (.response status (some c))) = false := by
  have h1 : get_groq_answer (.response status (some c)) =
      replBsnStr (pyStripStr c) := by
    simp [get_groq_answer, h]
  refine ⟨h1, ?_⟩
  rw [h1]
  exact replBsn_no_bsn _

/-- Witness for C3 at a concrete HTTP 200 response. -/
theorem get_groq_answer_success_normalizes_witness :
    (¬ (400 ≤ 200 ∧ 200 < 600)) ∧
    get_groq_answer (.response 200 (some "  hi\\nthere ")) =
      replBsnStr (pyStripStr "  hi\\nthere ") ∧
    hasBsnStr (get_groq_answer (.response 200 (some "  hi\\nthere "))) = false :=
  ⟨by decide,
   (get_groq_answer_success_normalizes 200 "  hi\\nthere " (by decide)).1,
   (get_groq_answer_success_normalizes 200 "  hi\\nthere " (by decide)).2⟩

/-- C2: whenever the Groq call raises — transport error, HTTP 4xx/5xx
(the statuses `raise_for_status` raises for), or malformed body —
`get_groq_answer` returns the fixed apology instead of propagating,
and the query workflow still completes, returning a full result whose
answer is that apology. -/
theorem groqError_degrades_to_apology {V : Type} [Inhabited V]
    (o : GroqOutcome) (h : groqCallRaises o = true)
    (embed : List String → List V)
    (storeSearch : V → Int → RAGSearchResult) (ev : QueryEvent) :
    get_groq_answer o = apologyMessage ∧
    rag_query_pdf_ai embed storeSearch (fun _ => get_groq_answer o) ev =
      { answer := apologyMessage,
        sources := (searchStep embed storeSearch ev.question
          (ev.top_k.getD 5)).sources,
        num_contexts := (searchStep embed storeSearch ev.question
          (ev.top_k.getD 5)).contexts.length } := by
  have h1 : get_groq_answer o = apologyMessage := by
    cases o with
    | transportError => rfl
    | response status content =>
      cases content with
      | none => simp [get_groq_answer]
      | some c =>
        simp [groqCallRaises] at h
        simp [get_groq_answer, h]
  exact ⟨h1, by simp [rag_query_pdf_ai, h1]⟩

/-- Witness for C2 at a concrete transport failure. -/
theorem groqError_degrades_to_apology_witness :
    groqCallRaises .transportError = true ∧
    rag_query_pdf_ai (fun qs => qs.map String.length)
        (fun _ _ => { contexts := ["ctx"], sources := ["doc1"] })
        (fun _ => get_groq_answer .transportError)
        { question := "What is X?", top_k := none } =
      { answer := apologyMessage, sources := ["doc1"], num_contexts := 1 } :=
  ⟨rfl,
   (groqError_degrades_to_apology .transportError rfl
     (fun qs => qs.map String.length)
     (fun _ _ => { contexts := ["ctx"], sources := ["doc1"] })
     { question := "What is X?", top_k := none }).2⟩

/-! ## Theorems: ingest workflow -/

/-- C1 counterexample: for the ingest event
`{pdf_path := "uploads/doc.pdf"}` with no `source_id`, every produced
record carries the full path `"uploads/doc.pdf"` as its source, not
the file name `"doc.pdf"`. -/
theorem ingest_default_source_not_fileName :
    ((rag_ingest_pdf (fun _ => ["chunk0"]) (fun s => s)
        (fun cs => cs.map String.length)
        { pdf_path := "uploads/doc.pdf", source_id := none }).payloads.getD 0
      { source := "", text := "" }).source = "uploads/doc.pdf" ∧
    fileName "uploads/doc.pdf" = "doc.pdf" ∧
    "uploads/doc.pdf" ≠ fileName "uploads/doc.pdf" := by
  refine ⟨?_, ?_, ?_⟩ <;> decide

/-- C1 amended: for every ingest event whose payload omits
`source_id`, the workflow uses the full `pdf_path` string as the
source identifier of every produced record. -/
theorem ingest_default_source_is_pdf_path {V : Type}
    (chunker : String → List String) (uuid5 : String → String)
    (embed : List String → List V) (ev : IngestEvent)
    (h : ev.source_id = none) :
    (loadStep chunker ev).source_id = ev.pdf_path ∧
    ∀ p ∈ (rag_ingest_pdf chunker uuid5 embed ev).payloads,
      p.source = ev.pdf_path := by
  constructor
  · simp [loadStep, h]
  · intro p hp
    simp only [rag_ingest_pdf, upsertStep, loadStep, h, Option.getD_none,
      List.mem_map, List.mem_range] at hp
    obtain ⟨i, _, rfl⟩ := hp
    rfl

/-- Witness for the amended C1 at a concrete event. -/
theorem ingest_default_source_is_pdf_path_witness :
    (IngestEvent.source_id { pdf_path := "uploads/doc.pdf", source_id := none } = none) ∧
    ∀ p ∈ (rag_ingest_pdf (fun _ => ["chunk0"]) (fun s => s)
        (fun cs => cs.map String.length)
        { pdf_path := "uploads/doc.pdf", source_id := none }).payloads,
      p.source = "uploads/doc.pdf" :=
  ⟨rfl, (ingest_default_source_is_pdf_path (fun _ => ["chunk0"]) (fun s => s)
    (fun cs => cs.map String.length)
    { pdf_path := "uploads/doc.pdf", source_id := none } rfl).2⟩

/-- C4: over `N` chunks with source `s`, the embed-and-upsert step
produces exactly `N` ids, the id at index `i` being the uuid5 hash of
`"s:i"`; each payload is `{source := s, text := chunk i}`; the result
is `{ingested := N}`; and the ids do not depend on the embedding call,
so re-ingesting the same source with the same chunks yields the same
ids. -/
theorem upsertStep_ids_payloads {V W : Type} (uuid5 : String → String)
    (embed : List String → List V) (embed2 : List String → List W)
    (s : String) (chunks : List String) :
    (upsertStep uuid5 embed ⟨chunks, s⟩).ids.length = chunks.length ∧
    (∀ i, i < chunks.length →
      (upsertStep uuid5 embed ⟨chunks, s⟩).ids.getD i "" =
        uuid5 (s ++ ":" ++ toString i)) ∧
    (∀ i, i < chunks.length →
      (upsertStep uuid5 embed ⟨chunks, s⟩).payloads.getD i
          { source := "", text := "" } =
        { source := s, text := chunks.getD i "" }) ∧
    (upsertStep uuid5 embed ⟨chunks, s⟩).result.ingested = chunks.length ∧
    (upsertStep uuid5 embed2 ⟨chunks, s⟩).ids =
      (upsertStep uuid5 embed ⟨chunks, s⟩).ids := by
  refine ⟨?_, ?_, ?_, rfl, rfl⟩
  · simp [upsertStep]
  · intro i hi
    simp [upsertStep, List.getD_eq_getElem?_getD, List.getElem?_map,
      List.getElem?_range, hi]
  · intro i hi
    simp [upsertStep, List.getD_eq_getElem?_getD, List.getElem?_map,
      List.getElem?_range, hi]

/-- Witness for C4: the spec's 3-chunk `doc1` scenario.  The ids are
the uuid5 hashes of `doc1:0`, `doc1:1`, `doc1:2` and the result is
`{ingested := 3}`. -/
theorem upsertStep_ids_payloads_witness :
    (1 : Nat) < 3 ∧
    (upsertStep (fun x => x) (fun cs => cs.map String.length)
        ⟨["aaa", "bbb", "ccc"], "doc1"⟩).ids.getD 1 "" =
      (fun x => x) ("doc1" ++ ":" ++ toString 1) ∧
    (upsertStep (fun x => x) (fun cs => cs.map String.length)
        ⟨["aaa", "bbb", "ccc"], "doc1"⟩).result.ingested = 3 := by
  refine ⟨by decide, ?_, ?_⟩
  · exact (upsertStep_ids_payloads (fun x => x) (fun cs => cs.map String.length)
      (fun cs => cs.map String.length) "doc1" ["aaa", "bbb", "ccc"]).2.1 1
      (by decide)
  · exact (upsertStep_ids_payloads (fun x => x) (fun cs => cs.map String.length)
      (fun cs => cs.map String.length) "doc1" ["aaa", "bbb", "ccc"]).2.2.2.1

/-! ## Theorems: query workflow -/

/-- C5: the query workflow's result reports `num_contexts` equal to
the number of contexts the search step returned, carries exactly the
search step's sources list, and `top_k` defaults to 5 when absent from
the payload. -/
theorem rag_query_pdf_ai_result_shape {V : Type} [Inhabited V]
    (embed : List String → List V)
    (storeSearch : V → Int → RAGSearchResult) (llm : String → String)
    (ev : QueryEvent) :
    (rag_query_pdf_ai embed storeSearch llm ev).num_contexts =
      (searchStep embed storeSearch ev.question
        (ev.top_k.getD 5)).contexts.length ∧
    (rag_query_pdf_ai embed storeSearch llm ev).sources =
      (searchStep embed storeSearch ev.question (ev.top_k.getD 5)).sources ∧
    (ev.top_k = none →
      rag_query_pdf_ai embed storeSearch llm ev =
        rag_query_pdf_ai embed storeSearch llm
          { question := ev.question, top_k := some 5 }) := by
  refine ⟨rfl, rfl, ?_⟩
  intro h
  simp [rag_query_pdf_ai, h]

/-- Witness for C5 at a concrete event with `top_k` absent. -/
theorem rag_query_pdf_ai_result_shape_witness :
    (QueryEvent.top_k { question := "What is X?", top_k := none } = none) ∧
    rag_query_pdf_ai (fun qs => qs.map String.length)
        (fun _ _ => { contexts := ["ctx"], sources := ["doc1"] })
        (fun _ => "ans") { question := "What is X?", top_k := none } =
      rag_query_pdf_ai (fun qs => qs.map String.length)
        (fun _ _ => { contexts := ["ctx"], sources := ["doc1"] })
        (fun _ => "ans") { question := "What is X?", top_k := some 5 } :=
  ⟨rfl, (rag_query_pdf_ai_result_shape (fun qs => qs.map String.length)
    (fun _ _ => { contexts := ["ctx"], sources := ["doc1"] })
    (fun _ => "ans") { question := "What is X?", top_k := none }).2.2 rfl⟩

/-! ## Theorems: chunker -/

/-- The first chunk of any input is its first `size` characters. -/
theorem chunkText_head (size ov : Nat) (s : List Char) (hov : ov < size) :
    ∃ rest, chunkText size ov s = s.take size :: rest := by
  rw [chunkText]
  split
  · exact ⟨_, rfl⟩
  · rename_i h
    refine ⟨[], ?_⟩
    have hle : s.length ≤ size := by
      by_contra hx
      exact h ⟨hov, by omega⟩
    rw [List.take_of_length_le hle]

/-- Every chunk has at most `size` characters. -/
theorem chunkText_len (size ov : Nat) (s : List Char) (hov : ov < size) :
    ∀ c ∈ chunkText size ov s, c.length ≤ size := by
  induction s using chunkText.induct size ov with
  | case1 s h ih =>
    rw [chunkText, dif_pos h]
    intro c hc
    rcases List.mem_cons.1 hc with rfl | hc'
    · simp
    · exact ih c hc'
  | case2 s h =>
    rw [chunkText, dif_neg h]
    intro c hc
    rcases List.mem_cons.1 hc with rfl | hc'
    · by_contra hx
      exact h ⟨hov, by omega⟩
    · simp at hc'

/-- Each consecutive pair of chunks shares exactly the `ov` trailing
characters of the former as the `ov` leading characters of the
latter. -/
theorem chunkText_chain (size ov : Nat) (s : List Char) (hov : ov < size) :
    List.Chain' (fun c1 c2 => c2.take ov = c1.drop (c1.length - ov))
      (chunkText size ov s) := by
  induction s using chunkText.induct size ov with
  | case1 s h ih =>
    rw [chunkText, dif_pos h]
    obtain ⟨rest, hrest⟩ := chunkText_head size ov (s.drop (size - ov)) hov
    rw [hrest] at ih ⊢
    refine List.Chain'.cons ?_ ih
    have h1 : (s.take size).length = size := by
      simp
      omega
    rw [h1, List.take_take, Nat.min_eq_left (Nat.le_of_lt hov), List.take_drop]
    have h2 : size - ov + ov = size := by omega
    rw [h2]
  | case2 s h =>
    rw [chunkText, dif_neg h]
    simp

/-- Concatenating the chunks with the overlapping regions removed
reconstructs the original text. -/
theorem reconcat_chunkText (size ov : Nat) (s : List Char) (hov : ov < size) :
    reconcat ov (chunkText size ov s) = s := by
  induction s using chunkText.induct size ov with
  | case1 s h ih =>
    rw [chunkText, dif_pos h]
    obtain ⟨rest, hrest⟩ := chunkText_head size ov (s.drop (size - ov)) hov
    rw [hrest] at ih ⊢
    have hlen : ov ≤ ((s.drop (size - ov)).take size).length := by
      simp
      omega
    have key : dropOvJoin ov (((s.drop (size - ov)).take size) :: rest) =
        (reconcat ov (((s.drop (size - ov)).take size) :: rest)).drop ov := by
      show ((s.drop (size - ov)).take size).drop ov ++ dropOvJoin ov rest =
        (((s.drop (size - ov)).take size) ++ dropOvJoin ov rest).drop ov
      rw [List.drop_append_of_le_length hlen]
    show s.take size ++ dropOvJoin ov (((s.drop (size - ov)).take size) :: rest) = s
    rw [key, ih, List.drop_drop]
    have h2 : size - ov + ov = size := by omega
    rw [h2, List.take_append_drop]
  | case2 s h =>
    rw [chunkText, dif_neg h]
    show s ++ dropOvJoin ov [] = s
    simp [dropOvJoin]

/-- C9: for every input string, with the configured `chunk_size = 1000`
and `chunk_overlap = 200`, every chunk has at most 1000 characters,
each consecutive pair of chunks shares exactly the 200 trailing
characters of the former as the 200 leading characters of the latter,
and concatenating the chunks with the overlapping regions removed
reconstructs the original text. -/
theorem chunkText_1000_200_spec (s : List Char) :
    (∀ c ∈ chunkText 1000 200 s, c.length ≤ 1000) ∧
    List.Chain' (fun c1 c2 => c2.take 200 = c1.drop (c1.length - 200))
      (chunkText 1000 200 s) ∧
    reconcat 200 (chunkText 1000 200 s) = s :=
  ⟨chunkText_len 1000 200 s (by norm_num),
   chunkText_chain 1000 200 s (by norm_num),
   reconcat_chunkText 1000 200 s (by norm_num)⟩

/-- Witness for C9 at a concrete two-character input. -/
theorem chunkText_1000_200_spec_witness :
    (['a', 'b'] ∈ chunkText 1000 200 ['a', 'b']) ∧
      (['a', 'b'] : List Char).length ≤ 1000 := by
  have hm : (['a', 'b'] : List Char) ∈ chunkText 1000 200 ['a', 'b'] := by
    rw [chunkText, dif_neg (by simp)]
    simp
  exact ⟨hm, (chunkText_1000_200_spec ['a', 'b']).1 ['a', 'b'] hm⟩

/-! ## Theorems: run-status polling -/

/-- A failure status is never also a success status. -/
theorem fail_not_succ (st : Option String)
    (h : optStatusIn failureStatuses st = true) :
    optStatusIn successStatuses st = false := by
  cases st with
  | none => simp [optStatusIn] at h
  | some s =>
    simp [optStatusIn, failureStatuses] at h
    rcases h with rfl | rfl <;> decide

/-- Once the deadline has passed, the loop body never decides to poll
again. -/
theorem pollIter_true_not_keep (runs : List RunInfo) (last l' : Option String) :
    pollIter runs true last ≠ .keepPolling l' := by
  cases runs with
  | nil => simp [pollIter]
  | cons run rest =>
    simp only [pollIter]
    split
    · simp
    · split <;> simp

/-- C8: the loop body returns the most recent run's output exactly
when its status is one of Completed/Succeeded/Success/Finished, raises
exactly when it is Failed or Cancelled, keeps polling on any other
status while the deadline holds, raises `TimeoutError` on any other
status once the deadline has passed, and the loop as a whole — when
the clock ever exceeds the deadline — reaches some outcome rather than
polling forever. -/
theorem wait_for_run_output_spec :
    (∀ (run : RunInfo) (rest : List RunInfo) (dl : Bool) (last : Option String),
      (pollIter (run :: rest) dl last = .terminal (.output (run.output.getD [])) ↔
        optStatusIn successStatuses run.status = true) ∧
      (pollIter (run :: rest) dl last = .terminal (.runFailed run.status) ↔
        optStatusIn failureStatuses run.status = true) ∧
      (optStatusIn successStatuses run.status = false →
       optStatusIn failureStatuses run.status = false →
       dl = false →
       pollIter (run :: rest) dl last = .keepPolling (orStatus run.status last)) ∧
      (optStatusIn successStatuses run.status = false →
       optStatusIn failureStatuses run.status = false →
       dl = true →
       pollIter (run :: rest) dl last =
         .terminal (.timedOut (orStatus run.status last)))) ∧
    (∀ (polls : Nat → List RunInfo) (elapsed : Nat → Nat)
      (timeout_s n : Nat) (last : Option String) (fuel : Nat),
      timeout_s < elapsed n → n < fuel →
      wait_for_run_output polls elapsed timeout_s fuel 0 last ≠ none) := by
  constructor
  · intro run rest dl last
    refine ⟨?_, ?_, ?_, ?_⟩
    · constructor
      · intro h
        cases hs : optStatusIn successStatuses run.status
        · cases hf : optStatusIn failureStatuses run.status
          · cases dl <;> simp [pollIter, hs, hf] at h
          · simp [pollIter, hs, hf] at h
        · rfl
      · intro h
        simp [pollIter, h]
    · constructor
      · intro h
        cases hs : optStatusIn successStatuses run.status
        · cases hf : optStatusIn failureStatuses run.status
          · cases dl <;> simp [pollIter, hs, hf] at h
          · rfl
        · simp [pollIter, hs] at h
      · intro h
        simp [pollIter, fail_not_succ _ h, h]
    · intro h1 h2 h3
      simp [pollIter, h1, h2, h3]
    · intro h1 h2 h3
      simp [pollIter, h1, h2, h3]
  · intro polls elapsed timeout_s n last fuel hdl hfuel
    have key : ∀ (f j : Nat) (l : Option String), j ≤ n → n - j < f →
        wait_for_run_output polls elapsed timeout_s f j l ≠ none := by
      intro f
      induction f with
      | zero => intro j l _ hlt; omega
      | succ f ih =>
        intro j l hj hlt
        simp only [wait_for_run_output]
        cases hpoll : pollIter (polls j) (decide (timeout_s < elapsed j)) l with
        | terminal w => simp
        | keepPolling l' =>
          by_cases hjn : j = n
          · subst hjn
            rw [decide_eq_true hdl] at hpoll
            exact absurd hpoll (pollIter_true_not_keep _ _ _)
          · have hj' : j < n := lt_of_le_of_ne hj hjn
            exact ih (j + 1) l' hj' (by omega)
    exact key fuel 0 last (Nat.zero_le n) (by omega)

/-- Witness for C8: a concrete non-terminal poll keeps polling, and a
concrete exceeded deadline yields a definite outcome. -/
theorem wait_for_run_output_spec_witness :
    (optStatusIn successStatuses (some "Running") = false ∧
     optStatusIn failureStatuses (some "Running") = false ∧
     pollIter [{ status := some "Running", output := none }] false none =
       .keepPolling (some "Running")) ∧
    ((0 : Nat) < 1 ∧ (1 : Nat) < 2 ∧
     wait_for_run_output (fun _ => []) (fun _ => 1) 0 2 0 none ≠ none) := by
  refine ⟨⟨by decide, by decide, ?_⟩, by decide, by decide, ?_⟩
  · simpa [orStatus] using
      (wait_for_run_output_spec.1 { status := some "Running", output := none }
        [] false none).2.2.1 (by decide) (by decide) rfl
  · exact wait_for_run_output_spec.2 (fun _ => []) (fun _ => 1) 0 1 none 2
      (by decide) (by decide)

end RAGProject
